import Mathlib

/-!
Shallow embedding of the order-placement workflow of the craftculture
backend (order router: `validateOrderInput`, `router.post("/")`,
`router.patch("/:orderId/status")`), together with the product ledger
and order store it mutates.

JS numbers that take part in money arithmetic (`price`, `offer`,
`totalAmount`) are modelled as rationals; quantities as integers
(the code never checks item quantities for sign); Mongo collections
as association lists keyed by ids (`Nat`); `findById` as lookup and
`save` as in-place replacement at the document's key.
-/

/-- Product `status` enum: "Available" / "Not Available" in the schema. -/
inductive ProductStatus
  | Available
  | NotAvailable
deriving DecidableEq, Repr

/-- The Product schema (models/Product.js): name, quantity, price, image,
status, category, offer. -/
structure Product where
  name : String
  quantity : Int
  price : ℚ
  image : Option String := none
  status : ProductStatus
  category : String := ""
  offer : ℚ := 0
deriving DecidableEq, Repr

/-- A cart item as submitted in `req.body.items`:
`{_id, name, quantity, price, offer}` (`pid` stands for `_id`). -/
structure CartItem where
  pid : Nat
  name : String
  quantity : Int
  price : ℚ
  offer : ℚ
deriving DecidableEq, Repr

/-- Order `status` enum. -/
inductive OrderStatus
  | Pending
  | Processing
  | Shipped
  | Delivered
  | Cancelled
deriving DecidableEq, Repr

/-- Shipping address object: street, city, state, postalCode. -/
structure Address where
  street : String
  city : String
  state : String
  postalCode : String
deriving DecidableEq, Repr

/-- An order document as constructed by `new Order({...})` in the
creation route. Time is abstracted to `Nat` (days). -/
structure Order where
  username : String
  fullName : String
  email : String
  phone : String
  items : List CartItem
  totalAmount : ℚ
  address : Address
  paymentMethod : String
  deliveryDate : Nat
  status : OrderStatus
  orderDate : Nat
  trackingNumber : Option String := none
  notes : Option String := none
deriving DecidableEq, Repr

/-- The product collection: association list from `_id` to document. -/
abbrev ProductStore := List (Nat × Product)

/-- The order collection: association list from `_id` to document. -/
abbrev OrderStore := List (Nat × Order)

/-- Both collections touched by the workflow. -/
structure Stores where
  products : ProductStore
  orders : OrderStore
deriving DecidableEq, Repr

/-- `Product.findById`: first document with the given id, if any. -/
def findProduct : ProductStore → Nat → Option Product
  | [], _ => none
  | (k, p) :: rest, i => if k = i then some p else findProduct rest i

/-- `product.save()` on a fetched document: replace the document stored
under its id, leaving every other document unchanged. -/
def saveProduct : ProductStore → Nat → Product → ProductStore
  | [], _, _ => []
  | (k, p) :: rest, i, q =>
    if k = i then (k, q) :: saveProduct rest i q else (k, p) :: saveProduct rest i q

/-- `Order.findById`. -/
def findOrder : OrderStore → Nat → Option Order
  | [], _ => none
  | (k, o) :: rest, i => if k = i then some o else findOrder rest i

/-- `order.save()` on a fetched order: replace at its id. -/
def saveOrder : OrderStore → Nat → Order → OrderStore
  | [], _, _ => []
  | (k, o) :: rest, i, q =>
    if k = i then (k, q) :: saveOrder rest i q else (k, o) :: saveOrder rest i q

/-- The JSON body of a create-order request. -/
structure OrderRequest where
  username : String
  fullName : String
  email : String
  phone : String
  items : List CartItem
  totalAmount : ℚ
  address : Address
  paymentMethod : String
deriving DecidableEq, Repr

/-- JS `String.prototype.trim`: strip whitespace from both ends. -/
def trimString (s : String) : String :=
  ⟨(((s.data.dropWhile Char.isWhitespace).reverse).dropWhile Char.isWhitespace).reverse⟩

/-- JS `String.prototype.toLowerCase`. -/
def lowerString (s : String) : String :=
  ⟨s.data.map Char.toLower⟩

/-- Split a character list at every occurrence of the separator. -/
def splitOnChar (c : Char) : List Char → List (List Char)
  | [] => [[]]
  | x :: xs =>
    match splitOnChar c xs, decide (x = c) with
    | r, true => [] :: r
    | h :: t, false => (x :: h) :: t
    | [], false => [[x]]

/-- Character class `[^\s@]` of the email regex. -/
def emailChar (c : Char) : Bool := !c.isWhitespace && c != '@'

/-- The email check `/^[^\s@]+@[^\s@]+\.[^\s@]+$/`: exactly one `@`,
a non-empty local part, and a domain containing a dot with at least one
character on each side, no whitespace anywhere. -/
def emailMatches (s : String) : Bool :=
  match splitOnChar '@' s.data with
  | [localPart, domain] =>
    !localPart.isEmpty && localPart.all emailChar &&
    !domain.isEmpty && domain.all emailChar &&
    ((domain.drop 1).dropLast.contains '.')
  | _ => false

/-- Character class `[\d\s-()]` of the phone regex. -/
def phoneChar (c : Char) : Bool :=
  c.isDigit || c.isWhitespace || c == '-' || c == '(' || c == ')'

/-- The phone check `/^\+?[\d\s-()]{8,}$/`: optional leading `+`, then
at least eight characters from the class. -/
def phoneMatches (s : String) : Bool :=
  match s.toList with
  | '+' :: t => decide (8 ≤ t.length) && t.all phoneChar
  | l => decide (8 ≤ l.length) && l.all phoneChar

/-- The `validateOrderInput` middleware: returns the 400 message of the
first failing check, or `none` when the request passes. -/
def validateOrderInput (req : OrderRequest) : Option String :=
  if trimString req.username = "" ∨ trimString req.fullName = "" ∨
     trimString req.email = "" ∨ trimString req.phone = "" then
    some "Customer information is incomplete"
  else if req.items.isEmpty then
    some "Order must contain at least one item"
  else if req.totalAmount ≤ 0 then
    some "Invalid total amount"
  else if req.address.street = "" ∨ req.address.city = "" ∨
          req.address.state = "" ∨ req.address.postalCode = "" then
    some "Shipping address is incomplete"
  else if req.paymentMethod ≠ "Online" ∧ req.paymentMethod ≠ "COD" then
    some "Invalid payment method"
  else if emailMatches req.email = false then
    some "Invalid email format"
  else if phoneMatches req.phone = false then
    some "Invalid phone number format"
  else
    none

/-- The business-rule errors thrown inside the creation `try` block. -/
inductive OrderError
  | productNotFound (name : String)
  | productNotAvailable (name : String)
  | insufficientStock (name : String) (available : Int)
  | priceOrOfferMismatch (name : String)
  | totalMismatch
deriving DecidableEq, Repr

/-- The human-readable message attached to each thrown error. -/
def errorMessage : OrderError → String
  | .productNotFound n => "Product not found: " ++ n
  | .productNotAvailable n => "Product " ++ n ++ " is currently not available"
  | .insufficientStock n a => "Insufficient stock for " ++ n ++ ". Available: " ++ toString a
  | .priceOrOfferMismatch n => "Price or offer mismatch for " ++ n
  | .totalMismatch => "Total amount calculation mismatch"

/-- One iteration of the reservation loop in `router.post("/")`:
look the product up, run the four guards in source order, then decrement
the stock, set status to "Not Available" when the result is 0, and save. -/
def reserveItem (store : ProductStore) (item : CartItem) : Except OrderError ProductStore :=
  match findProduct store item.pid with
  | none => .error (.productNotFound item.name)
  | some product =>
    if product.status ≠ .Available then
      .error (.productNotAvailable item.name)
    else if product.quantity < item.quantity then
      .error (.insufficientStock item.name product.quantity)
    else if product.price ≠ item.price ∨ product.offer ≠ item.offer then
      .error (.priceOrOfferMismatch item.name)
    else
      .ok (saveProduct store item.pid
        { product with
          quantity := product.quantity - item.quantity,
          status := if product.quantity - item.quantity = 0 then .NotAvailable
                    else product.status })

/-- The reservation loop: items processed sequentially in cart order,
each save durable before the next item; on a thrown error the loop stops
and the partially mutated store is kept. -/
def reserveItems : List CartItem → ProductStore → ProductStore × Option OrderError
  | [], store => (store, none)
  | item :: rest, store =>
    match reserveItem store item with
    | .error e => (store, some e)
    | .ok s2 => reserveItems rest s2

/-- One iteration of the compensation loop in the `catch` block:
re-fetch the product (a missing one is skipped), add the item quantity
back, set status to "Available" only when the result is positive, save. -/
def restoreItem (store : ProductStore) (item : CartItem) : ProductStore :=
  match findProduct store item.pid with
  | none => store
  | some product =>
    saveProduct store item.pid
      { product with
        quantity := product.quantity + item.quantity,
        status := if 0 < product.quantity + item.quantity then .Available
                  else product.status }

/-- The compensation loop over every submitted cart item. -/
def restoreItems : List CartItem → ProductStore → ProductStore
  | [], store => store
  | item :: rest, store => restoreItems rest (restoreItem store item)

/-- The `items.reduce` total: for each item,
`price = item.price * item.quantity`, `discount = price * (offer/100)`,
accumulating `sum + (price - discount)`. -/
def calculatedTotal (items : List CartItem) : ℚ :=
  items.foldl
    (fun sum item =>
      sum + (item.price * (item.quantity : ℚ) -
             (item.price * (item.quantity : ℚ)) * (item.offer / 100)))
    0

/-- Outcome of the create-order route. -/
inductive CreateResult
  | created (orderId : Nat) (estimatedDelivery : Nat)
  | validationError (msg : String)
  | orderError (e : OrderError)
deriving DecidableEq, Repr

/-- HTTP status code of a create-order outcome. -/
def createStatusCode : CreateResult → Nat
  | .created _ _ => 201
  | .validationError _ => 400
  | .orderError _ => 400

/-- The order document built by `new Order({...})` on the success path:
trimmed customer fields, lowercased email, the submitted items, address
and payment method as-is, status Pending, delivery estimate now + 5. -/
def newOrder (req : OrderRequest) (now : Nat) : Order :=
  { username := trimString req.username
    fullName := trimString req.fullName
    email := lowerString (trimString req.email)
    phone := trimString req.phone
    items := req.items
    totalAmount := req.totalAmount
    address := req.address
    paymentMethod := req.paymentMethod
    deliveryDate := now + 5
    status := .Pending
    orderDate := now }

/-- The whole `router.post("/")` pipeline: `validateOrderInput`
middleware, then the reservation loop, the total check with absolute
tolerance 0.01, and either persisting the new order (fresh id `oid`,
delivery estimate `now + 5` days) or running the compensation loop over
every submitted item before reporting the error. -/
def createOrderHandler (req : OrderRequest) (oid now : Nat) (s : Stores) :
    Stores × CreateResult :=
  match validateOrderInput req with
  | some msg => (s, .validationError msg)
  | none =>
    match reserveItems req.items s.products with
    | (ps, some e) =>
      ({ s with products := restoreItems req.items ps }, .orderError e)
    | (ps, none) =>
      if |calculatedTotal req.items - req.totalAmount| > 1 / 100 then
        ({ s with products := restoreItems req.items ps }, .orderError .totalMismatch)
      else
        ({ products := ps, orders := (oid, newOrder req now) :: s.orders },
         .created oid (now + 5))

/-- Outcome of the status-update route. -/
inductive UpdateResult
  | invalidStatus
  | orderNotFound
  | cancelledOrder
  | updated (o : Order)
deriving DecidableEq, Repr

/-- HTTP status code of a status-update outcome. -/
def updateStatusCode : UpdateResult → Nat
  | .invalidStatus => 400
  | .orderNotFound => 404
  | .cancelledOrder => 400
  | .updated _ => 200

/-- The `includes` check on the enumerated status strings. -/
def statusOfString (s : String) : Option OrderStatus :=
  if s = "Pending" then some .Pending
  else if s = "Processing" then some .Processing
  else if s = "Shipped" then some .Shipped
  else if s = "Delivered" then some .Delivered
  else if s = "Cancelled" then some .Cancelled
  else none

/-- One iteration of the cancellation restore loop: re-fetch the
product (a missing one is skipped), add the item quantity back, force
status to "Available" unconditionally, save. -/
def restoreCancelledItem (store : ProductStore) (item : CartItem) : ProductStore :=
  match findProduct store item.pid with
  | none => store
  | some product =>
    saveProduct store item.pid
      { product with
        quantity := product.quantity + item.quantity,
        status := .Available }

/-- The cancellation restore loop over every item of the order. -/
def restoreCancelled : List CartItem → ProductStore → ProductStore
  | [], store => store
  | item :: rest, store => restoreCancelled rest (restoreCancelledItem store item)

/-- JS truthiness of the optional `trackingNumber` / `notes` strings. -/
def truthyString : Option String → Bool
  | none => false
  | some s => s != ""

/-- The `router.patch("/:orderId/status")` handler: reject an invalid
target string, a missing order, or an already-cancelled order (in that
order, mutating nothing); otherwise restore stock when the target is
Cancelled, set the status, trim and store truthy optional fields, stamp
`deliveryDate` on Delivered, and save the order. -/
def updateOrderStatus (oid : Nat) (statusStr : String)
    (trackingNumber notes : Option String) (now : Nat) (s : Stores) :
    Stores × UpdateResult :=
  match statusOfString statusStr with
  | none => (s, .invalidStatus)
  | some target =>
    match findOrder s.orders oid with
    | none => (s, .orderNotFound)
    | some order =>
      if order.status = .Cancelled then (s, .cancelledOrder)
      else
        let ps :=
          if target = .Cancelled ∧ order.status ≠ .Cancelled then
            restoreCancelled order.items s.products
          else s.products
        let o1 := { order with status := target }
        let o2 :=
          if truthyString trackingNumber then
            { o1 with trackingNumber := some (trimString (trackingNumber.getD "")) }
          else o1
        let o3 :=
          if truthyString notes then
            { o2 with notes := some (trimString (notes.getD "")) }
          else o2
        let o4 := if target = .Delivered then { o3 with deliveryDate := now } else o3
        ({ products := ps, orders := saveOrder s.orders oid o4 }, .updated o4)

/-- Total quantity the cart orders for a given product id (the sum over
every item referencing that id). -/
def orderedQty : List CartItem → Nat → Int
  | [], _ => 0
  | item :: rest, i => (if item.pid = i then item.quantity else 0) + orderedQty rest i

/-- Whether a create-order outcome is a middleware validation failure. -/
def isValidationError : CreateResult → Bool
  | .validationError _ => true
  | _ => false

/-! Concrete scenario data used by witnesses and counterexamples. -/

/-- A well-formed shipping address. -/
def addrEx : Address := { street := "s", city := "c", state := "t", postalCode := "z" }

/-- Product with stock 2, used by the coherence scenario. -/
def prodC2 : Product :=
  { name := "X", quantity := 2, price := 100, status := .Available, offer := 0 }

/-- A valid request whose single cart item orders quantity 0 of product 1
(the code accepts non-positive item quantities); the claimed total 0.01 is
positive and within 0.01 of the computed total 0. -/
def reqC2a : OrderRequest :=
  { username := "u", fullName := "f", email := "a@b.c", phone := "12345678"
    items := [{ pid := 1, name := "X", quantity := 0, price := 100, offer := 0 }]
    totalAmount := 1 / 100, address := addrEx, paymentMethod := "COD" }

/-- A valid request ordering the remaining quantity 2 of product 1. -/
def reqC2b : OrderRequest :=
  { reqC2a with
    items := [{ pid := 1, name := "X", quantity := 2, price := 100, offer := 0 }]
    totalAmount := 200 }

/-- Initial state of the coherence scenario. -/
def stC2 : Stores := { products := [(1, prodC2)], orders := [] }

/-- State after the quantity-0 order has been created (id 101). -/
def stC2b : Stores := (createOrderHandler reqC2a 101 0 stC2).1

/-- State after the quantity-2 order has been created (id 102): product 1
now has quantity 0 and status "Not Available". -/
def stC2c : Stores := (createOrderHandler reqC2b 102 0 stC2b).1

/-- State after cancelling order 101: the zero-quantity restoration has
forced product 1 to status "Available" while its quantity is still 0. -/
def stC2d : Stores := (updateOrderStatus 101 "Cancelled" none none 0 stC2c).1

/-- Single-product store for exercising the mutation primitives. -/
def storeC2w : ProductStore :=
  [(1, { name := "W", quantity := 1, price := 5, status := .Available, offer := 0 })]

/-- Item ordering one unit of product 1 at the matching price. -/
def itemC2w : CartItem := { pid := 1, name := "W", quantity := 1, price := 5, offer := 0 }

/-- The product written by the reservation decrement on `storeC2w`. -/
def pC2res : Product :=
  { name := "W", quantity := 0, price := 5, status := .NotAvailable, offer := 0 }

/-- The product written by the compensation restore on `storeC2w`. -/
def pC2cmp : Product :=
  { name := "W", quantity := 2, price := 5, status := .Available, offer := 0 }

/-- Product "A" with ample stock for the partial-failure scenario. -/
def prodC3a : Product :=
  { name := "A", quantity := 5, price := 100, status := .Available, offer := 0 }

/-- Product "B" with insufficient stock for the partial-failure scenario. -/
def prodC3b : Product :=
  { name := "B", quantity := 1, price := 50, status := .Available, offer := 0 }

/-- Item 1: two units of product 1 ("A"), in stock. -/
def itemC3a : CartItem := { pid := 1, name := "A", quantity := 2, price := 100, offer := 0 }

/-- Item 2: three units of product 2 ("B"), more than its stock of 1. -/
def itemC3b : CartItem := { pid := 2, name := "B", quantity := 3, price := 50, offer := 0 }

/-- The two-item request of the partial-failure scenario. -/
def reqC3 : OrderRequest :=
  { username := "u", fullName := "f", email := "a@b.c", phone := "12345678"
    items := [itemC3a, itemC3b]
    totalAmount := 350, address := addrEx, paymentMethod := "COD" }

/-- Initial state of the partial-failure scenario. -/
def stC3 : Stores := { products := [(1, prodC3a), (2, prodC3b)], orders := [] }

/-- Product with stock 10, price 100, offer 10%, for the total check. -/
def prodT : Product :=
  { name := "T", quantity := 10, price := 100, status := .Available, offer := 10 }

/-- Item of the spec's total example: price 100, quantity 2, offer 10. -/
def itemT : CartItem := { pid := 1, name := "T", quantity := 2, price := 100, offer := 10 }

/-- Initial state of the total-check scenario. -/
def storesT : Stores := { products := [(1, prodT)], orders := [] }

/-- The `storesT` product ledger after reserving `itemT`. -/
def reservedT : ProductStore :=
  [(1, { name := "T", quantity := 8, price := 100, status := .Available, offer := 10 })]

/-- Total-check request claiming exactly 180.00. -/
def reqT180 : OrderRequest :=
  { username := "u", fullName := "f", email := "a@b.c", phone := "12345678"
    items := [itemT], totalAmount := 180, address := addrEx, paymentMethod := "COD" }

/-- Total-check request claiming 180.005 (within the 0.01 tolerance). -/
def reqT180005 : OrderRequest := { reqT180 with totalAmount := 36001 / 200 }

/-- Total-check request claiming 179.98 (off by 0.02, beyond tolerance). -/
def reqT17998 : OrderRequest := { reqT180 with totalAmount := 8999 / 50 }

/-- A cancelled order on file, for the terminality claim. -/
def ordC4 : Order :=
  { username := "u", fullName := "f", email := "a@b.c", phone := "12345678"
    items := [itemT], totalAmount := 180, address := addrEx, paymentMethod := "COD"
    deliveryDate := 5, status := .Cancelled, orderDate := 0 }

/-- Store containing only the cancelled order 401. -/
def stC4 : Stores := { products := [(1, prodT)], orders := [(401, ordC4)] }

/-- A pending two-item order whose cancellation will restore stock. -/
def ordC5 : Order :=
  { ordC4 with items := [itemC3a, itemC3b], status := .Pending }

/-- Store for the cancellation-restore scenario: order 501 pending,
product 1 at quantity 3, product 2 at quantity 0 and "Not Available". -/
def stC5 : Stores :=
  { products :=
      [(1, { prodC3a with quantity := 3 }),
       (2, { prodC3b with quantity := 0, status := .NotAvailable })]
    orders := [(501, ordC5)] }

/-- Request with an uppercase letter in the email, for the round-trip
counterexample: the stored email is lowercased. -/
def reqC9 : OrderRequest := { reqT180 with email := "A@b.c" }

/-- Request failing validation (username trims to empty). -/
def reqC8bad : OrderRequest := { reqT180 with username := " " }

/-- Item ordering quantity 0 of product 1 in `storeC2w`. -/
def itemC10z : CartItem := { pid := 1, name := "W", quantity := 0, price := 5, offer := 0 }

/-- Item ordering quantity -3 of product 1 in `storeC2w`. -/
def itemC10n : CartItem := { pid := 1, name := "W", quantity := -3, price := 5, offer := 0 }

/-! Lemmas about the store primitives. -/

/-- Looking up after a save: the saved document at its own id (when the
id was present), anything else unchanged. -/
theorem findProduct_save (store : ProductStore) (i j : Nat) (q : Product) :
    findProduct (saveProduct store i q) j =
      if i = j then (findProduct store i).map (fun _ => q) else findProduct store j := by
  induction store with
  | nil => by_cases h : i = j <;> simp [findProduct, saveProduct, h]
  | cons hd tl ih =>
    obtain ⟨k, v⟩ := hd
    by_cases hk : k = i
    · subst hk
      by_cases hj : k = j
      · subst hj
        simp [findProduct, saveProduct]
      · simp [findProduct, saveProduct, hj, ih, fun h : k = j => hj h]
    · by_cases hj : k = j
      · subst hj
        simp [findProduct, saveProduct, hk, if_neg (fun h : i = k => hk h.symm)]
      · simp [findProduct, saveProduct, hk, hj, ih]

/-- A compensation step leaves every other product id unchanged. -/
theorem restoreItem_frame (store : ProductStore) (item : CartItem) (j : Nat)
    (h : j ≠ item.pid) :
    findProduct (restoreItem store item) j = findProduct store j := by
  unfold restoreItem
  cases hf : findProduct store item.pid with
  | none => rfl
  | some p => rw [findProduct_save, if_neg (fun hh => h hh.symm)]

/-- A cancellation-restore step leaves every other product id unchanged. -/
theorem restoreCancelledItem_frame (store : ProductStore) (item : CartItem) (j : Nat)
    (h : j ≠ item.pid) :
    findProduct (restoreCancelledItem store item) j = findProduct store j := by
  unfold restoreCancelledItem
  cases hf : findProduct store item.pid with
  | none => rfl
  | some p => rw [findProduct_save, if_neg (fun hh => h hh.symm)]

/-- A product id no cart item references gets ordered quantity 0. -/
theorem orderedQty_not_mem (l : List CartItem) (i : Nat)
    (h : i ∉ l.map CartItem.pid) : orderedQty l i = 0 := by
  induction l with
  | nil => rfl
  | cons item rest ih =>
    simp only [List.map_cons, List.mem_cons] at h
    push_neg at h
    rw [orderedQty, if_neg (fun hh : item.pid = i => h.1 hh.symm), ih h.2, zero_add]

/-! Lemmas about one reservation step. -/

/-- Evaluation: a missing product id throws "product not found". -/
theorem reserveItem_notFound (store : ProductStore) (item : CartItem)
    (h : findProduct store item.pid = none) :
    reserveItem store item = .error (.productNotFound item.name) := by
  unfold reserveItem
  rw [h]

/-- Evaluation: a product that is not Available throws. -/
theorem reserveItem_notAvailable (store : ProductStore) (item : CartItem) (p : Product)
    (h : findProduct store item.pid = some p) (hs : p.status ≠ .Available) :
    reserveItem store item = .error (.productNotAvailable item.name) := by
  simp only [reserveItem, h]
  rw [if_pos hs]

/-- Evaluation: an Available product with quantity below the requested
quantity throws with the remaining stock. -/
theorem reserveItem_insufficient (store : ProductStore) (item : CartItem) (p : Product)
    (h : findProduct store item.pid = some p) (hs : p.status = .Available)
    (hq : p.quantity < item.quantity) :
    reserveItem store item = .error (.insufficientStock item.name p.quantity) := by
  simp only [reserveItem, h]
  rw [if_neg (fun hh => hh hs), if_pos hq]

/-- Evaluation: a requested price or offer differing from the product's
current values throws "price or offer mismatch". -/
theorem reserveItem_mismatch (store : ProductStore) (item : CartItem) (p : Product)
    (h : findProduct store item.pid = some p) (hs : p.status = .Available)
    (hq : ¬ p.quantity < item.quantity)
    (hm : p.price ≠ item.price ∨ p.offer ≠ item.offer) :
    reserveItem store item = .error (.priceOrOfferMismatch item.name) := by
  simp only [reserveItem, h]
  rw [if_neg (fun hh => hh hs), if_neg hq, if_pos hm]

/-- Evaluation: all four guards pass, so the decremented product is
saved (status forced to "Not Available" exactly when the result is 0). -/
theorem reserveItem_passes (store : ProductStore) (item : CartItem) (p : Product)
    (h : findProduct store item.pid = some p) (hs : p.status = .Available)
    (hq : ¬ p.quantity < item.quantity)
    (hp : p.price = item.price) (ho : p.offer = item.offer) :
    reserveItem store item = .ok (saveProduct store item.pid
      { p with quantity := p.quantity - item.quantity,
               status := if p.quantity - item.quantity = 0 then .NotAvailable
                         else p.status }) := by
  simp only [reserveItem, h]
  rw [if_neg (fun hh => hh hs), if_neg hq,
    if_neg (fun hh => hh.elim (fun hh2 => hh2 hp) (fun hh2 => hh2 ho))]

/-- Inversion: a successful reservation step means the product was
found and Available, with enough stock and matching price and offer,
and the result is exactly the saved decrement. -/
theorem reserveItem_ok_inv (store : ProductStore) (item : CartItem) (s2 : ProductStore)
    (h : reserveItem store item = .ok s2) :
    ∃ p, findProduct store item.pid = some p ∧ p.status = .Available ∧
      item.quantity ≤ p.quantity ∧ p.price = item.price ∧ p.offer = item.offer ∧
      s2 = saveProduct store item.pid
        { p with quantity := p.quantity - item.quantity,
                 status := if p.quantity - item.quantity = 0 then .NotAvailable
                           else p.status } := by
  unfold reserveItem at h
  cases hf : findProduct store item.pid with
  | none => rw [hf] at h; exact absurd h (by simp)
  | some p =>
    rw [hf] at h
    simp only [] at h
    refine ⟨p, rfl, ?_⟩
    by_cases h1 : p.status ≠ .Available
    · rw [if_pos h1] at h; exact absurd h (by simp)
    · rw [if_neg h1] at h
      by_cases h2 : p.quantity < item.quantity
      · rw [if_pos h2] at h; exact absurd h (by simp)
      · rw [if_neg h2] at h
        by_cases h3 : p.price ≠ item.price ∨ p.offer ≠ item.offer
        · rw [if_pos h3] at h; exact absurd h (by simp)
        · rw [if_neg h3] at h
          push_neg at h1 h3
          exact ⟨h1, not_lt.1 h2, h3.1, h3.2, (Except.ok.inj h).symm⟩

/-! Lemmas about the whole reservation loop on its success path. -/

/-- On a fully successful reservation pass, every referenced product
was present and Available in the store the loop started from. -/
theorem reserveItems_none_available (l : List CartItem) :
    ∀ store store2 : ProductStore, reserveItems l store = (store2, none) →
    ∀ i ∈ l.map CartItem.pid, ∃ p, findProduct store i = some p ∧ p.status = .Available := by
  induction l with
  | nil => intro store store2 _ i hi; simp at hi
  | cons item rest ih =>
    intro store store2 h i hi
    cases hri : reserveItem store item with
    | error e => rw [reserveItems, hri] at h; exact absurd (congrArg Prod.snd h) (by simp)
    | ok s1 =>
      simp only [reserveItems, hri] at h
      obtain ⟨p, hf, hs, hq, hp, ho, hsave⟩ := reserveItem_ok_inv store item s1 hri
      by_cases hip : i = item.pid
      · exact ⟨p, hip ▸ hf, hs⟩
      · simp only [List.map_cons, List.mem_cons] at hi
        obtain ⟨q, hfq, hsq⟩ :=
          ih s1 store2 h i (hi.resolve_left (fun hh => hip hh))
        refine ⟨q, ?_, hsq⟩
        rw [hsave, findProduct_save, if_neg (fun hh => hip hh.symm)] at hfq
        exact hfq

/-- State of the ledger after a fully successful reservation pass:
every product's quantity drops by the total quantity ordered for it,
and its status becomes "Not Available" exactly when it is referenced
and its final quantity is 0; unreferenced products are untouched. -/
theorem reserveItems_none_find (l : List CartItem) :
    ∀ store store2 : ProductStore, reserveItems l store = (store2, none) → ∀ i : Nat,
    findProduct store2 i =
      (findProduct store i).map (fun p =>
        { p with quantity := p.quantity - orderedQty l i,
                 status := if i ∈ l.map CartItem.pid ∧ p.quantity - orderedQty l i = 0
                           then .NotAvailable else p.status }) := by
  induction l with
  | nil =>
    intro store store2 h i
    have hst : store = store2 := congrArg Prod.fst h
    subst hst
    cases hf : findProduct store i with
    | none => simp
    | some p => obtain ⟨pn, pq, pp, pi, ps, pc, po⟩ := p; simp [orderedQty]
  | cons item rest ih =>
    intro store store2 h i
    cases hri : reserveItem store item with
    | error e => rw [reserveItems, hri] at h; exact absurd (congrArg Prod.snd h) (by simp)
    | ok s1 =>
      simp only [reserveItems, hri] at h
      obtain ⟨p, hf, hs, hq, hp, ho, hsave⟩ := reserveItem_ok_inv store item s1 hri
      have hmain := ih s1 store2 h i
      by_cases hip : item.pid = i
      · subst hip
        have hfs1 : findProduct s1 item.pid =
            some { p with quantity := p.quantity - item.quantity,
                          status := if p.quantity - item.quantity = 0 then
                            ProductStatus.NotAvailable else p.status } := by
          rw [hsave, findProduct_save, if_pos rfl, hf]
          rfl
        rw [hfs1] at hmain
        rw [hmain, hf]
        by_cases hmem : item.pid ∈ rest.map CartItem.pid
        · obtain ⟨q2, hfq2, hsq2⟩ :=
            reserveItems_none_available rest s1 store2 h item.pid hmem
          rw [hfs1] at hfq2
          have hq2 := Option.some.inj hfq2
          have hnz : ¬ p.quantity - item.quantity = 0 := by
            intro hz
            rw [← hq2] at hsq2
            simp only [hz, if_pos rfl] at hsq2
            exact absurd hsq2 (by simp)
          obtain ⟨pn, pq, pp, pi, ps, pc, po⟩ := p
          simp only [Option.map_some]
          simp [orderedQty, hmem, hnz, sub_sub]
        · have hz := orderedQty_not_mem rest item.pid hmem
          obtain ⟨pn, pq, pp, pi, ps, pc, po⟩ := p
          simp only [Option.map_some]
          simp [orderedQty, hmem, hz]
      · have hip2 : ¬ i = item.pid := fun hh => hip hh.symm
        have hfs1 : findProduct s1 i = findProduct store i := by
          rw [hsave, findProduct_save, if_neg hip]
        rw [hfs1] at hmain
        rw [hmain]
        cases hfi : findProduct store i with
        | none => simp
        | some q =>
          obtain ⟨pn, pq, pp, pi, ps, pc, po⟩ := q
          simp [orderedQty, hip, hip2]

/-- After a fully successful reservation pass, every referenced
product's remaining quantity is non-negative (the per-item guard
`quantity >= requested` held at its last decrement). -/
theorem reserveItems_none_nonneg (l : List CartItem) :
    ∀ store store2 : ProductStore, reserveItems l store = (store2, none) →
    ∀ i ∈ l.map CartItem.pid, ∀ p2, findProduct store2 i = some p2 → 0 ≤ p2.quantity := by
  induction l with
  | nil => intro store store2 _ i hi; simp at hi
  | cons item rest ih =>
    intro store store2 h i hi p2 hfp2
    cases hri : reserveItem store item with
    | error e => rw [reserveItems, hri] at h; exact absurd (congrArg Prod.snd h) (by simp)
    | ok s1 =>
      simp only [reserveItems, hri] at h
      by_cases hmem : i ∈ rest.map CartItem.pid
      · exact ih s1 store2 h i hmem p2 hfp2
      · simp only [List.map_cons, List.mem_cons] at hi
        have hip : i = item.pid := hi.resolve_right hmem
        subst hip
        obtain ⟨p, hf, hs, hq, hp, ho, hsave⟩ := reserveItem_ok_inv store item s1 hri
        have hfs1 : findProduct s1 item.pid =
            some { p with quantity := p.quantity - item.quantity,
                          status := if p.quantity - item.quantity = 0 then
                            ProductStatus.NotAvailable else p.status } := by
          rw [hsave, findProduct_save, if_pos rfl, hf]
          rfl
        have hmain := reserveItems_none_find rest s1 store2 h item.pid
        rw [hfs1] at hmain
        rw [hmain] at hfp2
        have hz := orderedQty_not_mem rest item.pid hmem
        simp only [Option.map_some'] at hfp2
        have hq2 := congrArg Product.quantity (Option.some.inj hfp2).symm
        simp only [hz, sub_zero] at hq2
        rw [hq2]
        exact sub_nonneg.2 hq

/-! Lemmas about the cancellation restore loop. -/

/-- State of the ledger after the cancellation restore loop: every
referenced product that exists gains the total quantity the order held
for it and is forced to "Available" unconditionally; a missing product
id stays missing (the item is skipped); unreferenced products are
untouched. -/
theorem restoreCancelled_find (l : List CartItem) :
    ∀ (store : ProductStore) (i : Nat),
    findProduct (restoreCancelled l store) i =
      (findProduct store i).map (fun p =>
        { p with quantity := p.quantity + orderedQty l i,
                 status := if i ∈ l.map CartItem.pid then .Available else p.status }) := by
  induction l with
  | nil =>
    intro store i
    cases hf : findProduct store i with
    | none => simp [restoreCancelled, hf]
    | some p =>
      obtain ⟨pn, pq, pp, pi, ps, pc, po⟩ := p
      simp [restoreCancelled, orderedQty, hf]
  | cons item rest ih =>
    intro store i
    have hstep : restoreCancelled (item :: rest) store =
        restoreCancelled rest (restoreCancelledItem store item) := rfl
    rw [hstep, ih]
    by_cases hip : item.pid = i
    · subst hip
      cases hf : findProduct store item.pid with
      | none =>
        have hskip : restoreCancelledItem store item = store := by
          simp only [restoreCancelledItem, hf]
        rw [hskip, hf]
        simp
      | some p =>
        have hsaved : findProduct (restoreCancelledItem store item) item.pid =
            some { p with quantity := p.quantity + item.quantity,
                          status := ProductStatus.Available } := by
          simp only [restoreCancelledItem, hf]
          rw [findProduct_save, if_pos rfl, hf]
          rfl
        rw [hsaved]
        obtain ⟨pn, pq, pp, pi, ps, pc, po⟩ := p
        simp only [Option.map_some']
        simp [orderedQty, add_assoc]
    · have hip2 : ¬ i = item.pid := fun hh => hip hh.symm
      rw [restoreCancelledItem_frame store item i hip2]
      cases hf : findProduct store i with
      | none => simp
      | some p =>
        obtain ⟨pn, pq, pp, pi, ps, pc, po⟩ := p
        simp [orderedQty, hip, hip2]

/-! Lemmas about validation and the creation pipeline. -/

/-- Inversion: when the middleware passes, every one of its checks
holds. -/
theorem validateOrderInput_none_inv (req : OrderRequest)
    (h : validateOrderInput req = none) :
    trimString req.username ≠ "" ∧ trimString req.fullName ≠ "" ∧
    trimString req.email ≠ "" ∧ trimString req.phone ≠ "" ∧
    req.items ≠ [] ∧ 0 < req.totalAmount ∧
    req.address.street ≠ "" ∧ req.address.city ≠ "" ∧
    req.address.state ≠ "" ∧ req.address.postalCode ≠ "" ∧
    (req.paymentMethod = "Online" ∨ req.paymentMethod = "COD") ∧
    emailMatches req.email = true ∧ phoneMatches req.phone = true := by
  unfold validateOrderInput at h
  split_ifs at h with h1 h2 h3 h4 h5 h6 h7
  push_neg at h1 h4 h5
  obtain ⟨hu, hfn, he, hp⟩ := h1
  obtain ⟨ha1, ha2, ha3, ha4⟩ := h4
  refine ⟨hu, hfn, he, hp, ?_, not_le.1 h3, ha1, ha2, ha3, ha4, ?_, ?_, ?_⟩
  · intro hnil
    exact h2 (by rw [hnil]; rfl)
  · by_cases hpm : req.paymentMethod = "Online"
    · exact Or.inl hpm
    · exact Or.inr (h5 hpm)
  · revert h6
    cases emailMatches req.email <;> simp
  · revert h7
    cases phoneMatches req.phone <;> simp

/-- Inversion of a successful creation: validation passed, the
reservation loop succeeded yielding the final ledger, the total check
was within tolerance, and the new order was prepended under the fresh
id, which is returned with the 5-day delivery estimate. -/
theorem createOrder_created_inv (req : OrderRequest) (oid now : Nat) (s s2 : Stores)
    (oid2 d : Nat) (h : createOrderHandler req oid now s = (s2, .created oid2 d)) :
    validateOrderInput req = none ∧ oid2 = oid ∧ d = now + 5 ∧
    reserveItems req.items s.products = (s2.products, none) ∧
    |calculatedTotal req.items - req.totalAmount| ≤ 1 / 100 ∧
    s2.orders = (oid, newOrder req now) :: s.orders := by
  unfold createOrderHandler at h
  cases hv : validateOrderInput req with
  | some m => rw [hv] at h; exact absurd (congrArg Prod.snd h) (by simp)
  | none =>
    rw [hv] at h
    rcases hr : reserveItems req.items s.products with ⟨ps, e⟩
    rw [hr] at h
    cases e with
    | some e0 => exact absurd (congrArg Prod.snd h) (by simp)
    | none =>
      simp only [] at h
      by_cases ht : |calculatedTotal req.items - req.totalAmount| > 1 / 100
      · rw [if_pos ht] at h
        exact absurd (congrArg Prod.snd h) (by simp)
      · rw [if_neg ht] at h
        have h1 := congrArg Prod.fst h
        have h2 := congrArg Prod.snd h
        simp only [Prod.fst, Prod.snd] at h1 h2
        have hoid : oid = oid2 := (CreateResult.created.inj h2).1
        have hd : now + 5 = d := (CreateResult.created.inj h2).2
        have hps : s2.products = ps := (congrArg Stores.products h1).symm
        have hor : s2.orders = (oid, newOrder req now) :: s.orders :=
          (congrArg Stores.orders h1).symm
        exact ⟨rfl, hoid.symm, hd.symm, by rw [hps], not_lt.1 ht, hor⟩

/-- Folding `sum + f item` over a list from any seed adds the mapped
sum to the seed. -/
theorem foldl_add_eq (f : CartItem → ℚ) :
    ∀ (l : List CartItem) (a : ℚ), l.foldl (fun sum i => sum + f i) a = a + (l.map f).sum := by
  intro l
  induction l with
  | nil => intro a; simp
  | cons x xs ih => intro a; simp [ih]; ring

/-- The reduce-based total equals the spec formula
`sum of price * quantity * (1 - offer/100)`. -/
theorem calculatedTotal_eq (items : List CartItem) :
    calculatedTotal items =
      (items.map (fun i => i.price * (i.quantity : ℚ) * (1 - i.offer / 100))).sum := by
  unfold calculatedTotal
  rw [foldl_add_eq, zero_add]
  induction items with
  | nil => simp
  | cons x xs ih => simp [ih]; ring

/-! Claim theorems. -/

/-- C1: for every successful order creation, every product referenced
by a cart item exists before the call and ends with quantity equal to
its pre-call quantity minus the quantity ordered for it, and that
resulting quantity is non-negative; moreover the insufficient-stock
error is unreachable once the per-item guard `quantity >= requested`
has passed. -/
theorem c1_stock_never_negative :
    (∀ (req : OrderRequest) (oid now : Nat) (s s2 : Stores) (oid2 d : Nat),
      createOrderHandler req oid now s = (s2, .created oid2 d) →
      ∀ item ∈ req.items,
        (findProduct s.products item.pid).isSome = true ∧
        (findProduct s2.products item.pid).map Product.quantity =
          (findProduct s.products item.pid).map
            (fun p => p.quantity - orderedQty req.items item.pid) ∧
        0 ≤ ((findProduct s2.products item.pid).map Product.quantity).getD 0) ∧
    (∀ (store : ProductStore) (item : CartItem) (p : Product),
      findProduct store item.pid = some p → ¬ p.quantity < item.quantity →
      ∀ n a, reserveItem store item ≠ .error (.insufficientStock n a)) := by
  constructor
  · intro req oid now s s2 oid2 d h item hitem
    obtain ⟨hv, hoid, hd, hr, ht, hor⟩ := createOrder_created_inv req oid now s s2 oid2 d h
    have hmem : item.pid ∈ req.items.map CartItem.pid := List.mem_map_of_mem _ hitem
    obtain ⟨p, hp, hps⟩ :=
      reserveItems_none_available req.items s.products s2.products hr item.pid hmem
    have hmap := reserveItems_none_find req.items s.products s2.products hr item.pid
    have hfind2 : findProduct s2.products item.pid =
        some { p with
               quantity := p.quantity - orderedQty req.items item.pid,
               status := if item.pid ∈ req.items.map CartItem.pid ∧
                   p.quantity - orderedQty req.items item.pid = 0
                 then ProductStatus.NotAvailable else p.status } := by
      rw [hmap, hp]
      rfl
    refine ⟨by rw [hp]; rfl, ?_, ?_⟩
    · rw [hfind2, hp]
      rfl
    · have h0 := reserveItems_none_nonneg req.items s.products s2.products hr
        item.pid hmem _ hfind2
      rw [hfind2]
      simpa using h0
  · intro store item p hp hq n a
    by_cases hs : p.status = .Available
    · by_cases hm : p.price ≠ item.price ∨ p.offer ≠ item.offer
      · rw [reserveItem_mismatch store item p hp hs hq hm]
        simp
      · push_neg at hm
        rw [reserveItem_passes store item p hp hs hq hm.1 hm.2]
        simp
    · rw [reserveItem_notAvailable store item p hp hs]
      simp

/-- Witness for C1 on a concrete successful creation: product 1 drops
from quantity 10 to 8 on an order of 2, staying non-negative. -/
theorem c1_stock_never_negative_witness :
    (findProduct storesT.products 1).isSome = true ∧
    (findProduct (createOrderHandler reqT180 201 0 storesT).1.products 1).map Product.quantity =
      (findProduct storesT.products 1).map
        (fun p => p.quantity - orderedQty reqT180.items 1) ∧
    0 ≤ ((findProduct (createOrderHandler reqT180 201 0 storesT).1.products 1).map
          Product.quantity).getD 0 :=
  c1_stock_never_negative.1 reqT180 201 0 storesT
    (createOrderHandler reqT180 201 0 storesT).1 201 5 (by with_unfolding_all decide)
    itemT (by with_unfolding_all decide)

/-- C2 (counterexample): a reachable workflow run ends with a product
at quantity 0 and status "Available", violating the claimed iff.
Order 101 (a single quantity-0 item, which validation accepts) is
created, order 102 drains the stock to 0 ("Not Available"), and then
cancelling order 101 adds back 0 and forces status to "Available". -/
theorem c2_status_coherence_counterexample :
    (createOrderHandler reqC2a 101 0 stC2).2 = .created 101 5 ∧
    (createOrderHandler reqC2b 102 0 stC2b).2 = .created 102 5 ∧
    updateStatusCode (updateOrderStatus 101 "Cancelled" none none 0 stC2c).2 = 200 ∧
    (findProduct stC2d.products 1).map (fun p => (p.quantity, p.status)) =
      some (0, ProductStatus.Available) ∧
    ProductStatus.Available ≠ ProductStatus.NotAvailable := by
  with_unfolding_all decide

/-- C2 (amended): after any single product mutation performed by the
workflow, `status = NotAvailable` iff `quantity = 0` — for the
creation-time decrement unconditionally, and for the failure-time
compensation and the cancellation-time restoration provided the item
quantity is at least 1 and the product's stock was non-negative
(the unguarded case item quantity = 0 is exactly the counterexample). -/
theorem c2_status_coherence_amended (store : ProductStore) (item : CartItem) :
    (∀ (s2 : ProductStore) (p : Product), reserveItem store item = .ok s2 →
      findProduct s2 item.pid = some p → (p.status = .NotAvailable ↔ p.quantity = 0)) ∧
    (1 ≤ item.quantity → ∀ p0, findProduct store item.pid = some p0 → 0 ≤ p0.quantity →
      ∀ p, findProduct (restoreItem store item) item.pid = some p →
        (p.status = .NotAvailable ↔ p.quantity = 0)) ∧
    (1 ≤ item.quantity → ∀ p0, findProduct store item.pid = some p0 → 0 ≤ p0.quantity →
      ∀ p, findProduct (restoreCancelledItem store item) item.pid = some p →
        (p.status = .NotAvailable ↔ p.quantity = 0)) := by
  refine ⟨?_, ?_, ?_⟩
  · intro s2 p hok hfind
    obtain ⟨p0, hf, hs, hq, hp, ho, hsave⟩ := reserveItem_ok_inv store item s2 hok
    rw [hsave, findProduct_save, if_pos rfl, hf, Option.map_some'] at hfind
    have hpd := (Option.some.inj hfind).symm
    subst hpd
    by_cases hz : p0.quantity - item.quantity = 0
    · simp [hz]
    · simp [hz, hs]
  · intro hiq p0 hf hq0 p hfind
    have hstep : restoreItem store item = saveProduct store item.pid
        { p0 with quantity := p0.quantity + item.quantity,
                  status := if 0 < p0.quantity + item.quantity then ProductStatus.Available
                            else p0.status } := by
      simp only [restoreItem, hf]
    rw [hstep, findProduct_save, if_pos rfl, hf, Option.map_some'] at hfind
    have hpd := (Option.some.inj hfind).symm
    subst hpd
    have hpos : 0 < p0.quantity + item.quantity := by omega
    simp [if_pos hpos]
    omega
  · intro hiq p0 hf hq0 p hfind
    have hstep : restoreCancelledItem store item = saveProduct store item.pid
        { p0 with quantity := p0.quantity + item.quantity,
                  status := ProductStatus.Available } := by
      simp only [restoreCancelledItem, hf]
    rw [hstep, findProduct_save, if_pos rfl, hf, Option.map_some'] at hfind
    have hpd := (Option.some.inj hfind).symm
    subst hpd
    simp
    omega

/-- Witness for the amended C2 on a one-unit product: the decrement
writes quantity 0 / "Not Available", the two restorations write
quantity 2 / "Available"; each satisfies the iff. -/
theorem c2_status_coherence_amended_witness :
    (pC2res.status = .NotAvailable ↔ pC2res.quantity = 0) ∧
    (pC2cmp.status = .NotAvailable ↔ pC2cmp.quantity = 0) ∧
    (pC2cmp.status = .NotAvailable ↔ pC2cmp.quantity = 0) :=
  ⟨(c2_status_coherence_amended storeC2w itemC2w).1 (saveProduct storeC2w 1 pC2res) pC2res
      (by with_unfolding_all rfl) (by with_unfolding_all decide),
   (c2_status_coherence_amended storeC2w itemC2w).2.1 (by with_unfolding_all decide)
      { name := "W", quantity := 1, price := 5, status := .Available, offer := 0 }
      (by with_unfolding_all decide) (by with_unfolding_all decide) pC2cmp
      (by with_unfolding_all decide),
   (c2_status_coherence_amended storeC2w itemC2w).2.2 (by with_unfolding_all decide)
      { name := "W", quantity := 1, price := 5, status := .Available, offer := 0 }
      (by with_unfolding_all decide) (by with_unfolding_all decide) pC2cmp
      (by with_unfolding_all decide)⟩

/-- C3 (counterexample): two-item cart, item 1 (2 of "A", in stock)
and item 2 (3 of "B", stock 1). Creation fails, but the compensation
loop also "restores" item 2, which was never decremented: product 2
ends at quantity 4, not its pre-call quantity 1. -/
theorem c3_compensation_counterexample :
    (createOrderHandler reqC3 301 0 stC3).2 =
      .orderError (.insufficientStock "B" 1) ∧
    (findProduct (createOrderHandler reqC3 301 0 stC3).1.products 2).map Product.quantity =
      some 4 ∧
    (findProduct stC3.products 2).map Product.quantity = some 1 ∧
    (4 : Int) ≠ 1 := by
  with_unfolding_all decide

/-- C3 (amended): with a two-item cart where item 1 passes its guards
and item 2 has insufficient stock, creation fails with the
insufficient-stock error, no order is stored, item 1's product is
restored exactly to its pre-call state, every uninvolved product is
untouched — but item 2's product, never decremented, has its quantity
increased by item 2's quantity (best-effort compensation
over-restores). -/
theorem c3_compensation_amended (req : OrderRequest) (oid now : Nat) (s : Stores)
    (i1 i2 : CartItem) (p1 p2 : Product)
    (hreq : req.items = [i1, i2])
    (hv : validateOrderInput req = none)
    (hne : i2.pid ≠ i1.pid)
    (hf1 : findProduct s.products i1.pid = some p1)
    (hs1 : p1.status = .Available)
    (hq1 : i1.quantity ≤ p1.quantity)
    (ha1 : 1 ≤ i1.quantity)
    (hp1 : p1.price = i1.price)
    (ho1 : p1.offer = i1.offer)
    (hf2 : findProduct s.products i2.pid = some p2)
    (hs2 : p2.status = .Available)
    (hq2 : p2.quantity < i2.quantity)
    (hn2 : 0 ≤ p2.quantity) :
    (createOrderHandler req oid now s).2 =
      .orderError (.insufficientStock i2.name p2.quantity) ∧
    (createOrderHandler req oid now s).1.orders = s.orders ∧
    findProduct (createOrderHandler req oid now s).1.products i1.pid = some p1 ∧
    findProduct (createOrderHandler req oid now s).1.products i2.pid =
      some { p2 with quantity := p2.quantity + i2.quantity } ∧
    ∀ j : Nat, j ≠ i1.pid → j ≠ i2.pid →
      findProduct (createOrderHandler req oid now s).1.products j =
        findProduct s.products j := by
  have hne1 : ¬ i1.pid = i2.pid := fun hh => hne hh.symm
  set pd1 : Product :=
    { p1 with quantity := p1.quantity - i1.quantity,
              status := if p1.quantity - i1.quantity = 0 then ProductStatus.NotAvailable
                        else p1.status } with hpd1
  set st1 : ProductStore := saveProduct s.products i1.pid pd1 with hst1
  have hres1 : reserveItem s.products i1 = .ok st1 :=
    reserveItem_passes s.products i1 p1 hf1 hs1 (not_lt.2 hq1) hp1 ho1
  have hfst1_1 : findProduct st1 i1.pid = some pd1 := by
    rw [hst1, findProduct_save, if_pos rfl, hf1]
    rfl
  have hfst1_2 : findProduct st1 i2.pid = some p2 := by
    rw [hst1, findProduct_save, if_neg hne1]
    exact hf2
  have hres2 : reserveItem st1 i2 = .error (.insufficientStock i2.name p2.quantity) :=
    reserveItem_insufficient st1 i2 p2 hfst1_2 hs2 hq2
  have hloop : reserveItems req.items s.products =
      (st1, some (.insufficientStock i2.name p2.quantity)) := by
    rw [hreq]
    simp only [reserveItems, hres1, hres2]
  have hrun : createOrderHandler req oid now s =
      ({ s with products := restoreItems req.items st1 },
       .orderError (.insufficientStock i2.name p2.quantity)) := by
    unfold createOrderHandler
    rw [hv, hloop]
  have hq1pos : 0 < p1.quantity := by omega
  have hri1 : restoreItem st1 i1 = saveProduct st1 i1.pid p1 := by
    simp only [restoreItem, hfst1_1]
    congr 1
    rw [sub_add_cancel, if_pos hq1pos, ← hs1]
  have hfst2_2 : findProduct (saveProduct st1 i1.pid p1) i2.pid = some p2 := by
    rw [findProduct_save, if_neg hne1]
    exact hfst1_2
  have hpos2 : 0 < p2.quantity + i2.quantity := by omega
  have hri2 : restoreItem (saveProduct st1 i1.pid p1) i2 =
      saveProduct (saveProduct st1 i1.pid p1) i2.pid
        { p2 with quantity := p2.quantity + i2.quantity } := by
    simp only [restoreItem, hfst2_2]
    congr 1
    rw [if_pos hpos2, ← hs2]
  have hrestore : restoreItems req.items st1 =
      saveProduct (saveProduct st1 i1.pid p1) i2.pid
        { p2 with quantity := p2.quantity + i2.quantity } := by
    rw [hreq]
    simp only [restoreItems, hri1, hri2]
  refine ⟨by rw [hrun], by rw [hrun], ?_, ?_, ?_⟩
  · rw [hrun]
    show findProduct (restoreItems req.items st1) i1.pid = some p1
    rw [hrestore, findProduct_save, if_neg hne, findProduct_save, if_pos rfl, hfst1_1]
    rfl
  · rw [hrun]
    show findProduct (restoreItems req.items st1) i2.pid =
      some { p2 with quantity := p2.quantity + i2.quantity }
    rw [hrestore, findProduct_save, if_pos rfl, hfst2_2]
    rfl
  · intro j hj1 hj2
    rw [hrun]
    show findProduct (restoreItems req.items st1) j = findProduct s.products j
    rw [hrestore, findProduct_save, if_neg (fun hh => hj2 hh.symm),
      findProduct_save, if_neg (fun hh => hj1 hh.symm), hst1,
      findProduct_save, if_neg (fun hh => hj1 hh.symm)]

/-- Witness for the amended C3 on the concrete scenario: the failure
outcome, untouched order store, exact restoration of product 1, and
the over-restored quantity of product 2. -/
theorem c3_compensation_amended_witness :
    (createOrderHandler reqC3 301 0 stC3).2 =
      .orderError (.insufficientStock itemC3b.name prodC3b.quantity) ∧
    (createOrderHandler reqC3 301 0 stC3).1.orders = stC3.orders ∧
    findProduct (createOrderHandler reqC3 301 0 stC3).1.products itemC3a.pid =
      some prodC3a ∧
    findProduct (createOrderHandler reqC3 301 0 stC3).1.products itemC3b.pid =
      some { prodC3b with quantity := prodC3b.quantity + itemC3b.quantity } := by
  have h := c3_compensation_amended reqC3 301 0 stC3 itemC3a itemC3b prodC3a prodC3b
    (by with_unfolding_all decide) (by with_unfolding_all decide)
    (by with_unfolding_all decide) (by with_unfolding_all rfl)
    (by with_unfolding_all decide) (by with_unfolding_all decide)
    (by with_unfolding_all decide) (by with_unfolding_all decide)
    (by with_unfolding_all decide) (by with_unfolding_all rfl)
    (by with_unfolding_all decide) (by with_unfolding_all decide)
    (by with_unfolding_all decide)
  exact ⟨h.1, h.2.1, h.2.2.1, h.2.2.2.1⟩

/-- C4: once an order's status is Cancelled, every status-update call
whose target parses to one of the five statuses (including Cancelled)
fails with the cannot-update-cancelled-order rejection (HTTP 400) and
returns the stores untouched. -/
theorem c4_cancelled_terminal (oid now : Nat) (targetStr : String) (target : OrderStatus)
    (tn nts : Option String) (s : Stores) (o : Order)
    (ht : statusOfString targetStr = some target)
    (ho : findOrder s.orders oid = some o)
    (hc : o.status = .Cancelled) :
    updateOrderStatus oid targetStr tn nts now s = (s, .cancelledOrder) ∧
    updateStatusCode .cancelledOrder = 400 := by
  constructor
  · simp only [updateOrderStatus, ht, ho]
    rw [if_pos hc]
  · rfl

/-- Witness for C4: updating cancelled order 401 to "Pending" (and to
"Cancelled") is rejected without mutation. -/
theorem c4_cancelled_terminal_witness :
    (updateOrderStatus 401 "Pending" none none 0 stC4 = (stC4, .cancelledOrder) ∧
      updateStatusCode .cancelledOrder = 400) ∧
    (updateOrderStatus 401 "Cancelled" none none 0 stC4 = (stC4, .cancelledOrder) ∧
      updateStatusCode .cancelledOrder = 400) :=
  ⟨c4_cancelled_terminal 401 0 "Pending" .Pending none none stC4 ordC4
      (by with_unfolding_all decide) (by with_unfolding_all decide)
      (by with_unfolding_all decide),
   c4_cancelled_terminal 401 0 "Cancelled" .Cancelled none none stC4 ordC4
      (by with_unfolding_all decide) (by with_unfolding_all decide)
      (by with_unfolding_all decide)⟩

/-- C5: when the target is Cancelled and the order's current status is
not, the transition succeeds (HTTP 200) and the resulting ledger is the
cancellation restore of the order's items: every existing referenced
product gains the total quantity the order held for it and is forced to
status Available unconditionally (even when the result is 0), while a
missing product id is skipped silently and unreferenced products are
untouched. -/
theorem c5_cancellation_restores (oid now : Nat) (tn nts : Option String)
    (s : Stores) (o : Order)
    (ho : findOrder s.orders oid = some o)
    (hnc : o.status ≠ .Cancelled) :
    (updateOrderStatus oid "Cancelled" tn nts now s).1.products =
      restoreCancelled o.items s.products ∧
    updateStatusCode (updateOrderStatus oid "Cancelled" tn nts now s).2 = 200 ∧
    ∀ i : Nat, findProduct (restoreCancelled o.items s.products) i =
      (findProduct s.products i).map (fun p =>
        { p with quantity := p.quantity + orderedQty o.items i,
                 status := if i ∈ o.items.map CartItem.pid then .Available
                           else p.status }) := by
  have hstat : statusOfString "Cancelled" = some OrderStatus.Cancelled := by
    with_unfolding_all decide
  have hcond : OrderStatus.Cancelled = OrderStatus.Cancelled ∧
      o.status ≠ OrderStatus.Cancelled := ⟨rfl, hnc⟩
  refine ⟨?_, ?_, fun i => restoreCancelled_find o.items s.products i⟩
  · simp only [updateOrderStatus, hstat, ho]
    rw [if_neg hnc]
    simp [hnc]
  · simp only [updateOrderStatus, hstat, ho]
    rw [if_neg hnc]
    rfl

/-- Witness for C5: cancelling pending order 501 succeeds and its
ledger equals the cancellation restore; instantiated at referenced
product 1 and at the absent id 3. -/
theorem c5_cancellation_restores_witness :
    (updateOrderStatus 501 "Cancelled" none none 0 stC5).1.products =
      restoreCancelled ordC5.items stC5.products ∧
    updateStatusCode (updateOrderStatus 501 "Cancelled" none none 0 stC5).2 = 200 ∧
    findProduct (restoreCancelled ordC5.items stC5.products) 1 =
      (findProduct stC5.products 1).map (fun p =>
        { p with quantity := p.quantity + orderedQty ordC5.items 1,
                 status := if 1 ∈ ordC5.items.map CartItem.pid then .Available
                           else p.status }) ∧
    findProduct (restoreCancelled ordC5.items stC5.products) 3 =
      (findProduct stC5.products 3).map (fun p =>
        { p with quantity := p.quantity + orderedQty ordC5.items 3,
                 status := if 3 ∈ ordC5.items.map CartItem.pid then .Available
                           else p.status }) := by
  have h := c5_cancellation_restores 501 0 none none stC5 ordC5
    (by with_unfolding_all decide) (by with_unfolding_all decide)
  exact ⟨h.1, h.2.1, h.2.2 1, h.2.2 3⟩

/-- C6: the recomputed total is the sum of
`price * quantity * (1 - offer/100)` over the items; once validation
and reservation have passed, creation succeeds iff the claimed
`totalAmount` is within absolute tolerance 0.01 of it; concretely, for
the single item price 100 / quantity 2 / offer 10 (expected total 180),
claimed totals 180.00 and 180.005 succeed while 179.98 fails. -/
theorem c6_total_check :
    (∀ items : List CartItem, calculatedTotal items =
      (items.map (fun i => i.price * (i.quantity : ℚ) * (1 - i.offer / 100))).sum) ∧
    (∀ (req : OrderRequest) (oid now : Nat) (s : Stores) (ps : ProductStore),
      validateOrderInput req = none →
      reserveItems req.items s.products = (ps, none) →
      ((createOrderHandler req oid now s).2 = .created oid (now + 5) ↔
        |calculatedTotal req.items - req.totalAmount| ≤ 1 / 100)) ∧
    (createOrderHandler reqT180 201 0 storesT).2 = .created 201 5 ∧
    (createOrderHandler reqT180005 202 0 storesT).2 = .created 202 5 ∧
    (createOrderHandler reqT17998 203 0 storesT).2 = .orderError .totalMismatch := by
  refine ⟨calculatedTotal_eq, ?_, by with_unfolding_all decide,
    by with_unfolding_all decide, by with_unfolding_all decide⟩
  intro req oid now s ps hv hr
  simp only [createOrderHandler, hv, hr]
  by_cases ht : |calculatedTotal req.items - req.totalAmount| > 1 / 100
  · rw [if_pos ht]
    constructor
    · intro hcr
      exact absurd hcr (by simp)
    · intro hle
      exact absurd ht (not_lt.2 hle)
  · rw [if_neg ht]
    constructor
    · intro _
      exact not_lt.1 ht
    · intro _
      rfl

/-- Witness for C6 instantiating the iff at the 180.00 request. -/
theorem c6_total_check_witness :
    (createOrderHandler reqT180 201 0 storesT).2 = .created 201 5 ↔
      |calculatedTotal reqT180.items - reqT180.totalAmount| ≤ 1 / 100 :=
  c6_total_check.2.1 reqT180 201 0 storesT reservedT
    (by with_unfolding_all decide) (by with_unfolding_all rfl)

/-- C7: per-item reservation behavior — in guard order: a missing
product id fails naming the item; a non-Available product fails; a
quantity below the requested one fails reporting the remaining stock; a
price or offer differing from the product's current values fails with
the mismatch error; otherwise the decremented product (status
"Not Available" exactly when the result is 0) is saved; and the loop
runs sequentially in cart order, feeding each item's saved store to the
next item and stopping at the first error. -/
theorem c7_reservation_step (store : ProductStore) (item : CartItem) :
    (findProduct store item.pid = none →
      reserveItem store item = .error (.productNotFound item.name)) ∧
    (∀ p, findProduct store item.pid = some p → p.status ≠ .Available →
      reserveItem store item = .error (.productNotAvailable item.name)) ∧
    (∀ p, findProduct store item.pid = some p → p.status = .Available →
      p.quantity < item.quantity →
      reserveItem store item = .error (.insufficientStock item.name p.quantity)) ∧
    (∀ p, findProduct store item.pid = some p → p.status = .Available →
      ¬ p.quantity < item.quantity → p.price ≠ item.price ∨ p.offer ≠ item.offer →
      reserveItem store item = .error (.priceOrOfferMismatch item.name)) ∧
    (∀ p, findProduct store item.pid = some p → p.status = .Available →
      ¬ p.quantity < item.quantity → p.price = item.price → p.offer = item.offer →
      reserveItem store item = .ok (saveProduct store item.pid
        { p with quantity := p.quantity - item.quantity,
                 status := if p.quantity - item.quantity = 0 then .NotAvailable
                           else p.status })) ∧
    (∀ (rest : List CartItem) (s2 : ProductStore), reserveItem store item = .ok s2 →
      reserveItems (item :: rest) store = reserveItems rest s2) ∧
    (∀ (rest : List CartItem) (e : OrderError), reserveItem store item = .error e →
      reserveItems (item :: rest) store = (store, some e)) := by
  refine ⟨reserveItem_notFound store item,
    fun p h hs => reserveItem_notAvailable store item p h hs,
    fun p h hs hq => reserveItem_insufficient store item p h hs hq,
    fun p h hs hq hm => reserveItem_mismatch store item p h hs hq hm,
    fun p h hs hq hp ho => reserveItem_passes store item p h hs hq hp ho,
    ?_, ?_⟩
  · intro rest s2 hok
    rw [reserveItems, hok]
  · intro rest e herr
    rw [reserveItems, herr]

/-- Witness for C7 exercising each branch on concrete one-product
stores: missing id, unavailable product, short stock, price mismatch,
successful decrement, and both sequencing equations. -/
theorem c7_reservation_step_witness :
    reserveItem [] itemC2w = .error (.productNotFound "W") ∧
    reserveItem [(1, pC2res)] itemC2w = .error (.productNotAvailable "W") ∧
    reserveItem [(1, pC2cmp)] { itemC2w with quantity := 5 } =
      .error (.insufficientStock "W" 2) ∧
    reserveItem [(1, pC2cmp)] { itemC2w with price := 6 } =
      .error (.priceOrOfferMismatch "W") ∧
    reserveItem storeC2w itemC2w = .ok (saveProduct storeC2w 1
      { name := "W", quantity := 0, price := 5, status :=
          if (0 : Int) = 0 then .NotAvailable else .Available, offer := 0 }) ∧
    reserveItems [itemC2w] storeC2w = reserveItems [] (saveProduct storeC2w 1
      { name := "W", quantity := 0, price := 5, status :=
          if (0 : Int) = 0 then .NotAvailable else .Available, offer := 0 }) ∧
    reserveItems [itemC2w] [] = ([], some (.productNotFound "W")) := by
  refine ⟨(c7_reservation_step [] itemC2w).1 (by with_unfolding_all decide),
    (c7_reservation_step [(1, pC2res)] itemC2w).2.1 pC2res
      (by with_unfolding_all decide) (by with_unfolding_all decide),
    (c7_reservation_step [(1, pC2cmp)] { itemC2w with quantity := 5 }).2.2.1 pC2cmp
      (by with_unfolding_all decide) (by with_unfolding_all decide)
      (by with_unfolding_all decide),
    (c7_reservation_step [(1, pC2cmp)] { itemC2w with price := 6 }).2.2.2.1 pC2cmp
      (by with_unfolding_all decide) (by with_unfolding_all decide)
      (by with_unfolding_all decide) (by with_unfolding_all decide),
    ?_, ?_, ?_⟩
  · exact (c7_reservation_step storeC2w itemC2w).2.2.2.2.1
      { name := "W", quantity := 1, price := 5, status := .Available, offer := 0 }
      (by with_unfolding_all decide) (by with_unfolding_all decide)
      (by with_unfolding_all decide) (by with_unfolding_all decide)
      (by with_unfolding_all decide)
  · exact (c7_reservation_step storeC2w itemC2w).2.2.2.2.2.1 []
      (saveProduct storeC2w 1
        { name := "W", quantity := 0, price := 5, status :=
            if (0 : Int) = 0 then .NotAvailable else .Available, offer := 0 })
      (by with_unfolding_all rfl)
  · exact (c7_reservation_step [] itemC2w).2.2.2.2.2.2 []
      (.productNotFound "W") (by with_unfolding_all rfl)

/-- C8: any request violating an input precondition — an empty customer
field after trimming, a malformed email or phone, an empty items list,
a non-positive totalAmount, an incomplete address, or a payment method
outside Online/COD — makes the route answer with a 400 validation error
and leaves both stores untouched. -/
theorem c8_validation_rejects (req : OrderRequest) (oid now : Nat) (s : Stores)
    (h : trimString req.username = "" ∨ trimString req.fullName = "" ∨
      trimString req.email = "" ∨ trimString req.phone = "" ∨
      emailMatches req.email = false ∨ phoneMatches req.phone = false ∨
      req.items = [] ∨ req.totalAmount ≤ 0 ∨
      req.address.street = "" ∨ req.address.city = "" ∨
      req.address.state = "" ∨ req.address.postalCode = "" ∨
      (req.paymentMethod ≠ "Online" ∧ req.paymentMethod ≠ "COD")) :
    (createOrderHandler req oid now s).1 = s ∧
    isValidationError (createOrderHandler req oid now s).2 = true ∧
    createStatusCode (createOrderHandler req oid now s).2 = 400 := by
  have hv : validateOrderInput req ≠ none := by
    intro hn
    obtain ⟨h1, h2, h3, h4, h5, h6, h7, h8, h9, h10, h11, h12, h13⟩ :=
      validateOrderInput_none_inv req hn
    rcases h with hh | hh | hh | hh | hh | hh | hh | hh | hh | hh | hh | hh | hh
    · exact h1 hh
    · exact h2 hh
    · exact h3 hh
    · exact h4 hh
    · rw [h12] at hh; exact absurd hh (by simp)
    · rw [h13] at hh; exact absurd hh (by simp)
    · exact h5 hh
    · exact absurd h6 (not_lt.2 hh)
    · exact h7 hh
    · exact h8 hh
    · exact h9 hh
    · exact h10 hh
    · rcases h11 with h14 | h14
      · exact hh.1 h14
      · exact hh.2 h14
  cases hm : validateOrderInput req with
  | none => exact absurd hm hv
  | some m =>
    refine ⟨?_, ?_, ?_⟩ <;> simp only [createOrderHandler, hm] <;> rfl

/-- Witness for C8: a request whose username trims to empty is rejected
with a 400 and no mutation. -/
theorem c8_validation_rejects_witness :
    (createOrderHandler reqC8bad 601 0 storesT).1 = storesT ∧
    isValidationError (createOrderHandler reqC8bad 601 0 storesT).2 = true ∧
    createStatusCode (createOrderHandler reqC8bad 601 0 storesT).2 = 400 :=
  c8_validation_rejects reqC8bad 601 0 storesT
    (Or.inl (by with_unfolding_all decide))

set_option maxRecDepth 10000 in
/-- C9 (counterexample): the round-trip is not exact on the raw
submitted values: submitting email "A@b.c" succeeds but the fetched
order holds the lowercased "a@b.c". -/
theorem c9_roundtrip_counterexample :
    (createOrderHandler reqC9 701 0 storesT).2 = .created 701 5 ∧
    (findOrder (createOrderHandler reqC9 701 0 storesT).1.orders 701).map Order.email =
      some "a@b.c" ∧
    reqC9.email = "A@b.c" ∧
    ("a@b.c" : String) ≠ "A@b.c" := by
  with_unfolding_all decide

/-- C9 (amended): fetching a successfully created order returns its
items, address, payment method and initial status Pending exactly as
submitted, and the customer strings after the normalization the code
applies at creation: username, fullName and phone trimmed, email
trimmed and lowercased. -/
theorem c9_roundtrip_amended (req : OrderRequest) (oid now : Nat) (s s2 : Stores)
    (oid2 d : Nat) (h : createOrderHandler req oid now s = (s2, .created oid2 d)) :
    (findOrder s2.orders oid2).map Order.items = some req.items ∧
    (findOrder s2.orders oid2).map Order.username = some (trimString req.username) ∧
    (findOrder s2.orders oid2).map Order.fullName = some (trimString req.fullName) ∧
    (findOrder s2.orders oid2).map Order.email =
      some (lowerString (trimString req.email)) ∧
    (findOrder s2.orders oid2).map Order.phone = some (trimString req.phone) ∧
    (findOrder s2.orders oid2).map Order.address = some req.address ∧
    (findOrder s2.orders oid2).map Order.paymentMethod = some req.paymentMethod ∧
    (findOrder s2.orders oid2).map Order.status = some OrderStatus.Pending := by
  obtain ⟨hv, hoid, hd, hr, ht, hor⟩ := createOrder_created_inv req oid now s s2 oid2 d h
  subst hoid
  have hfind : findOrder s2.orders oid2 = some (newOrder req now) := by
    rw [hor]
    simp [findOrder]
  rw [hfind]
  exact ⟨rfl, rfl, rfl, rfl, rfl, rfl, rfl, rfl⟩

set_option maxRecDepth 10000 in
/-- Witness for the amended C9 on the concrete "A@b.c" creation. -/
theorem c9_roundtrip_amended_witness :
    (findOrder (createOrderHandler reqC9 701 0 storesT).1.orders 701).map Order.items =
      some reqC9.items ∧
    (findOrder (createOrderHandler reqC9 701 0 storesT).1.orders 701).map Order.username =
      some (trimString reqC9.username) ∧
    (findOrder (createOrderHandler reqC9 701 0 storesT).1.orders 701).map Order.fullName =
      some (trimString reqC9.fullName) ∧
    (findOrder (createOrderHandler reqC9 701 0 storesT).1.orders 701).map Order.email =
      some (lowerString (trimString reqC9.email)) ∧
    (findOrder (createOrderHandler reqC9 701 0 storesT).1.orders 701).map Order.phone =
      some (trimString reqC9.phone) ∧
    (findOrder (createOrderHandler reqC9 701 0 storesT).1.orders 701).map Order.address =
      some reqC9.address ∧
    (findOrder (createOrderHandler reqC9 701 0 storesT).1.orders 701).map
      Order.paymentMethod = some reqC9.paymentMethod ∧
    (findOrder (createOrderHandler reqC9 701 0 storesT).1.orders 701).map Order.status =
      some OrderStatus.Pending :=
  c9_roundtrip_amended reqC9 701 0 storesT
    (createOrderHandler reqC9 701 0 storesT).1 701 5 (by with_unfolding_all decide)

/-- C10: order creation never checks that a cart item's quantity is
positive. Validation depends on the items only through emptiness; a
quantity-0 item against an Available product with matching price and
offer passes every reservation guard and leaves the stock count
unchanged; a negative quantity passes the `quantity >= requested` guard
trivially (given non-negative stock) and the decrement increases the
product's stock. -/
theorem c10_no_item_quantity_check :
    (∀ (req : OrderRequest) (items2 : List CartItem),
      req.items.isEmpty = items2.isEmpty →
      validateOrderInput req = validateOrderInput { req with items := items2 }) ∧
    (∀ (store : ProductStore) (item : CartItem) (p : Product),
      findProduct store item.pid = some p → p.status = .Available →
      p.price = item.price → p.offer = item.offer → 0 ≤ p.quantity →
      (item.quantity = 0 →
        reserveItem store item = .ok (saveProduct store item.pid
          { p with quantity := p.quantity,
                   status := if p.quantity = 0 then .NotAvailable else p.status })) ∧
      (item.quantity < 0 →
        reserveItem store item = .ok (saveProduct store item.pid
          { p with quantity := p.quantity - item.quantity,
                   status := if p.quantity - item.quantity = 0 then .NotAvailable
                             else p.status }) ∧
        p.quantity < p.quantity - item.quantity)) := by
  constructor
  · intro req items2 hemp
    unfold validateOrderInput
    rw [hemp]
  · intro store item p hf hs hp ho hq
    constructor
    · intro hz
      rw [reserveItem_passes store item p hf hs (by omega) hp ho, hz, sub_zero]
    · intro hneg
      exact ⟨reserveItem_passes store item p hf hs (by omega) hp ho, by omega⟩

/-- Witness for C10: swapping the item list for a quantity-0 singleton
does not change validation; reserving quantity 0 of the one-unit
product keeps quantity 1; reserving quantity -3 raises it to 4. -/
theorem c10_no_item_quantity_check_witness :
    validateOrderInput reqT180 = validateOrderInput { reqT180 with items := [itemC10z] } ∧
    reserveItem storeC2w itemC10z = .ok (saveProduct storeC2w 1
      { name := "W", quantity := 1, price := 5,
        status := if (1 : Int) = 0 then .NotAvailable else .Available, offer := 0 }) ∧
    (reserveItem storeC2w itemC10n = .ok (saveProduct storeC2w 1
      { name := "W", quantity := 4, price := 5,
        status := if (4 : Int) = 0 then .NotAvailable else .Available, offer := 0 }) ∧
      (1 : Int) < 4) :=
  ⟨c10_no_item_quantity_check.1 reqT180 [itemC10z] (by with_unfolding_all decide),
   (c10_no_item_quantity_check.2 storeC2w itemC10z
      { name := "W", quantity := 1, price := 5, status := .Available, offer := 0 }
      (by with_unfolding_all decide) (by with_unfolding_all decide)
      (by with_unfolding_all decide) (by with_unfolding_all decide)
      (by with_unfolding_all decide)).1 (by with_unfolding_all decide),
   (c10_no_item_quantity_check.2 storeC2w itemC10n
      { name := "W", quantity := 1, price := 5, status := .Available, offer := 0 }
      (by with_unfolding_all decide) (by with_unfolding_all decide)
      (by with_unfolding_all decide) (by with_unfolding_all decide)
      (by with_unfolding_all decide)).2 (by with_unfolding_all decide)⟩
